import Mathlib

/-!
Shallow embedding of the metrics-derivation engine of
`src/server/ns3/nr-simulation.cc`: the Flow Aggregator
(`ThroughputMonitor`, lines 36-62) and the Fallback Estimator
(the `if (gThroughput <= 0)` block of `main`, lines 210-220).

C++ `double` values are modelled as real numbers; the `uint64_t`
counters `rxBytes` and `rxPackets` as naturals.  `Time` values enter
the computation only through `GetSeconds()`, so they are carried as
reals directly.
-/

/-- One `FlowMonitor::FlowStats` record as read by `ThroughputMonitor`:
`rxBytes` and `rxPackets` are the received byte/packet counters,
`delaySum` is `delaySum.GetSeconds()`, and the two timestamps are
`timeFirstTxPacket.GetSeconds()` and `timeLastRxPacket.GetSeconds()`. -/
structure FlowStats where
  rxBytes : ℕ
  rxPackets : ℕ
  delaySum : ℝ
  timeFirstTxPacket : ℝ
  timeLastRxPacket : ℝ

/-- The two mutable globals of the file: `gThroughput` (line 32) and
`gLatency` (line 33); the spec calls this pair `AggregateMetrics`. -/
structure AggregateMetrics where
  gThroughput : ℝ
  gLatency : ℝ

/-- The four configuration globals read by the fallback block of `main`:
`gFrequency` (line 25), `gBandwidth` (line 26), `gDuplexMode` (line 27)
and `gTxPower` (line 28); the spec calls this `ScenarioConfig`.
`gDuplexMode` stays a string, as in the source. -/
structure ScenarioConfig where
  gFrequency : ℝ
  gBandwidth : ℝ
  gDuplexMode : String
  gTxPower : ℝ

/-- The loop of `ThroughputMonitor` (lines 44-58), carrying the local
accumulator `totalThroughput` and the global `gLatency` through the
iteration over the flow-stats map.  For each record with `rxBytes > 0`
(line 46) it adds `rxBytes * 8.0 / (timeLastRxPacket - timeFirstTxPacket)
/ 1000` (line 48) to the total, and, when additionally `rxPackets > 0`
(line 51), replaces the latency by `(gLatency + delaySum / rxPackets) /
2.0` (lines 53-55). -/
noncomputable def monitorLoop : List FlowStats → ℝ → ℝ → ℝ × ℝ
  | [], total, lat => (total, lat)
  | r :: rest, total, lat =>
      if 0 < r.rxBytes then
        monitorLoop rest
          (total + (r.rxBytes : ℝ) * 8 /
            (r.timeLastRxPacket - r.timeFirstTxPacket) / 1000)
          (if 0 < r.rxPackets then (lat + r.delaySum / (r.rxPackets : ℝ)) / 2
           else lat)
      else
        monitorLoop rest total lat

/-- The Flow Aggregator `ThroughputMonitor` (lines 36-62): runs the loop
with `totalThroughput = 0.0` (line 42) and the incoming `gLatency`, then
overwrites `gThroughput` with `totalThroughput * 1000` (line 61). -/
noncomputable def ThroughputMonitor (stats : List FlowStats)
    (m : AggregateMetrics) : AggregateMetrics :=
  ⟨(monitorLoop stats 0 m.gLatency).1 * 1000,
   (monitorLoop stats 0 m.gLatency).2⟩

/-- The divisors fed to the throughput division of line 48: one per
record that enters the `rxBytes > 0` branch (line 46).  The division
executes for every entry of this list with no guard on its value, so a
`0` entry means the code divides by zero. -/
def throughputDivisors (stats : List FlowStats) : List ℝ :=
  (stats.filter fun r => decide (0 < r.rxBytes)).map
    fun r => r.timeLastRxPacket - r.timeFirstTxPacket

/-- The divisors fed to the latency division of line 53: one per record
that enters both the `rxBytes > 0` branch (line 46) and the nested
`rxPackets > 0` branch (line 51); the divisor is `rxPackets` itself. -/
def latencyDivisors (stats : List FlowStats) : List ℕ :=
  (stats.filter fun r => decide (0 < r.rxBytes) && decide (0 < r.rxPackets)).map
    fun r => r.rxPackets

/-- Modelled from the spec: the Aggregator throughput as §4.1 and claim C3
describe it — `1000` times the sum, over records with `rxBytes > 0` AND
positive elapsed time, of `rxBytes * 8 / Δt / 1000`.  (The source applies
no elapsed-time filter; this definition exists to be compared with
`ThroughputMonitor`.) -/
noncomputable def specThroughputBps (stats : List FlowStats) : ℝ :=
  1000 * (stats.map fun r =>
    if 0 < r.rxBytes ∧ 0 < r.timeLastRxPacket - r.timeFirstTxPacket then
      (r.rxBytes : ℝ) * 8 / (r.timeLastRxPacket - r.timeFirstTxPacket) / 1000
    else 0).sum

/-- Local `snr` of the fallback block (line 212):
`10 + (gTxPower - 20) / 2`. -/
noncomputable def snr (c : ScenarioConfig) : ℝ :=
  10 + (c.gTxPower - 20) / 2

/-- Local `spectralEfficiency` (line 213): `log2(1 + pow(10, snr/10))`. -/
noncomputable def spectralEfficiency (c : ScenarioConfig) : ℝ :=
  Real.logb 2 (1 + (10 : ℝ) ^ (snr c / 10))

/-- Local `duplexEfficiency` (line 214): `0.8` for TDD, else `0.95`. -/
noncomputable def duplexEfficiency (c : ScenarioConfig) : ℝ :=
  if c.gDuplexMode = "TDD" then 0.8 else 0.95

/-- Local `mimoFactor` (line 215): `4` below 6 GHz, else `8`. -/
noncomputable def mimoFactor (c : ScenarioConfig) : ℝ :=
  if c.gFrequency < 6e9 then 4 else 8

/-- Local `overheadFactor` (line 216): the constant `0.85`. -/
def overheadFactor : ℝ := 0.85

/-- Fallback throughput (line 218): `gBandwidth * spectralEfficiency *
duplexEfficiency * mimoFactor * overheadFactor`. -/
noncomputable def fallbackThroughput (c : ScenarioConfig) : ℝ :=
  c.gBandwidth * spectralEfficiency c * duplexEfficiency c * mimoFactor c *
    overheadFactor

/-- Fallback latency (line 219): `0.001 + (TDD ? 0.0005 : 0) +
(100e6/gBandwidth)*0.0005`. -/
noncomputable def fallbackLatency (c : ScenarioConfig) : ℝ :=
  0.001 + (if c.gDuplexMode = "TDD" then 0.0005 else 0) +
    (100e6 / c.gBandwidth) * 0.0005

/-- The Fallback Estimator (spec §4.2 name `EstimateIfNeeded`; code lines
210-220): when `gThroughput <= 0` it overwrites both metrics with the
closed-form values, otherwise it leaves them untouched. -/
noncomputable def EstimateIfNeeded (m : AggregateMetrics)
    (c : ScenarioConfig) : AggregateMetrics :=
  if m.gThroughput ≤ 0 then ⟨fallbackThroughput c, fallbackLatency c⟩ else m

/-- Unfolding the accumulator: the first component of `monitorLoop` is the
incoming total plus one `rxBytes>0`-gated contribution per record. -/
lemma monitorLoop_fst (stats : List FlowStats) : ∀ total lat : ℝ,
    (monitorLoop stats total lat).1 =
      total + (stats.map fun r =>
        if 0 < r.rxBytes then
          (r.rxBytes : ℝ) * 8 / (r.timeLastRxPacket - r.timeFirstTxPacket) / 1000
        else 0).sum := by
  induction stats with
  | nil => intro total lat; simp [monitorLoop]
  | cons r rest ih =>
      intro total lat
      by_cases h : 0 < r.rxBytes
      · simp only [monitorLoop, if_pos h, ih, List.map_cons, List.sum_cons]
        ring
      · simp only [monitorLoop, if_neg h, ih, List.map_cons, List.sum_cons]
        ring

/-- The latency component of `monitorLoop` ignores the throughput
accumulator. -/
lemma monitorLoop_snd_total (stats : List FlowStats) : ∀ total total' lat : ℝ,
    (monitorLoop stats total lat).2 = (monitorLoop stats total' lat).2 := by
  induction stats with
  | nil => intro total total' lat; simp [monitorLoop]
  | cons r rest ih =>
      intro total total' lat
      by_cases h : 0 < r.rxBytes
      · simp only [monitorLoop, if_pos h]; exact ih _ _ _
      · simp only [monitorLoop, if_neg h]; exact ih _ _ _

/-- A record with `rxBytes = 0` is skipped whole: neither accumulator
moves. -/
lemma monitorLoop_skip (stats : List FlowStats) :
    ∀ total lat : ℝ, (∀ r ∈ stats, r.rxBytes = 0) →
    monitorLoop stats total lat = (total, lat) := by
  induction stats with
  | nil => intro total lat _; rfl
  | cons r rest ih =>
      intro total lat h
      have hr : r.rxBytes = 0 := h r (List.mem_cons_self r rest)
      have : ¬ 0 < r.rxBytes := by omega
      simp only [monitorLoop, if_neg this]
      exact ih total lat fun s hs => h s (List.mem_cons_of_mem r hs)

/-- C8: on a collection in which every record has `rxBytes == 0`, the
Aggregator reports `throughputBps == 0` and leaves `meanLatencySeconds`
exactly as it was before the call. -/
theorem no_qualifying_flows (stats : List FlowStats) (m : AggregateMetrics)
    (h : ∀ r ∈ stats, r.rxBytes = 0) :
    (ThroughputMonitor stats m).gThroughput = 0 ∧
    (ThroughputMonitor stats m).gLatency = m.gLatency := by
  unfold ThroughputMonitor
  rw [monitorLoop_skip stats 0 m.gLatency h]
  norm_num

/-- Witness for C8 at a concrete input: one zero-byte record, prior
metrics `(9, 7)`. -/
theorem no_qualifying_flows_witness :
    (ThroughputMonitor [⟨0, 3, 5, 0, 2⟩] ⟨9, 7⟩).gThroughput = 0 ∧
    (ThroughputMonitor [⟨0, 3, 5, 0, 2⟩] ⟨9, 7⟩).gLatency = 7 :=
  no_qualifying_flows [⟨0, 3, 5, 0, 2⟩] ⟨9, 7⟩ (by
    intro r hr
    rw [List.mem_singleton] at hr
    subst hr
    rfl)

/-- C9: every divisor the latency division of line 53 is ever evaluated
with is positive — the division sits under the `rxPackets > 0` guard, so
no record, including one with `rxPackets == 0`, can make it divide by
zero. -/
theorem latency_divisors_pos (stats : List FlowStats) :
    ∀ d ∈ latencyDivisors stats, 0 < d := by
  intro d hd
  unfold latencyDivisors at hd
  rw [List.mem_map] at hd
  obtain ⟨r, hr, rfl⟩ := hd
  rw [List.mem_filter] at hr
  have := hr.2
  simp only [Bool.and_eq_true, decide_eq_true_eq] at this
  exact this.2

/-- Witness for C9: a concrete stats list whose latency-divisor list is
the nonempty `[2]`, so the theorem really inspects a performed
division. -/
theorem latency_divisors_pos_witness :
    (2 : ℕ) ∈ latencyDivisors [⟨1, 2, 3, 0, 1⟩] ∧ 0 < 2 :=
  ⟨by simp [latencyDivisors],
   latency_divisors_pos [⟨1, 2, 3, 0, 1⟩] 2 (by simp [latencyDivisors])⟩

/-- C1 (code bug): the throughput division of line 48 is NOT guarded
against a zero elapsed time.  A record with `rxBytes = 150000` and
`timeFirstTxPacket = timeLastRxPacket = 1` enters the `rxBytes > 0`
branch and the division is evaluated with divisor `0`, contrary to the
spec's claim that such a record is excluded before any division. -/
theorem throughput_division_unguarded :
    (0 : ℝ) ∈ throughputDivisors [⟨150000, 100, 1, 1, 1⟩] := by
  simp [throughputDivisors]

/-- C3 counterexample: the code applies no elapsed-time filter.  On the
single record with `rxBytes = 1000`, `timeFirstTxPacket = 1` and
`timeLastRxPacket = 0` (elapsed time `-1`), `ThroughputMonitor` reports
`-8000` while the spec's filtered sum is `0`. -/
theorem aggregate_negative_dt_cex :
    (ThroughputMonitor [⟨1000, 0, 0, 1, 0⟩] ⟨0, 0⟩).gThroughput = -8000 ∧
    specThroughputBps [⟨1000, 0, 0, 1, 0⟩] = 0 ∧
    (-8000 : ℝ) ≠ 0 := by
  refine ⟨?_, ?_, by norm_num⟩
  · simp only [ThroughputMonitor, monitorLoop]
    norm_num
  · simp only [specThroughputBps, List.map_cons, List.map_nil, List.sum_cons,
      List.sum_nil]
    rw [if_neg (by norm_num)]
    norm_num

/-- C3 amended: on every collection in which each record with
`rxBytes > 0` has positive elapsed time, the Aggregator's output equals
`1000` times the sum, over records with `rxBytes > 0` and positive
elapsed time, of `rxBytes * 8 / Δt / 1000`. -/
theorem aggregate_throughput_eq_spec (stats : List FlowStats)
    (m : AggregateMetrics)
    (h : ∀ r ∈ stats, 0 < r.rxBytes →
      0 < r.timeLastRxPacket - r.timeFirstTxPacket) :
    (ThroughputMonitor stats m).gThroughput = specThroughputBps stats := by
  unfold ThroughputMonitor specThroughputBps
  rw [monitorLoop_fst]
  have hmap : (stats.map fun r =>
        if 0 < r.rxBytes then
          (r.rxBytes : ℝ) * 8 / (r.timeLastRxPacket - r.timeFirstTxPacket) / 1000
        else 0)
      = stats.map fun r =>
        if 0 < r.rxBytes ∧ 0 < r.timeLastRxPacket - r.timeFirstTxPacket then
          (r.rxBytes : ℝ) * 8 / (r.timeLastRxPacket - r.timeFirstTxPacket) / 1000
        else 0 := by
    apply List.map_congr_left
    intro r hr
    dsimp only
    by_cases hb : 0 < r.rxBytes
    · rw [if_pos hb, if_pos ⟨hb, h r hr hb⟩]
    · rw [if_neg hb, if_neg fun hc => hb hc.1]
  rw [hmap]
  ring

/-- Witness for C3 at the spec's own single-flow instance:
`rxBytes = 150000`, window `[0 s, 1 s]`, output `1,200,000` bps. -/
theorem aggregate_throughput_single_flow :
    (ThroughputMonitor [⟨150000, 0, 0, 0, 1⟩] ⟨0, 0⟩).gThroughput
      = 1200000 := by
  rw [aggregate_throughput_eq_spec [⟨150000, 0, 0, 0, 1⟩] ⟨0, 0⟩ (by
    intro r hr _
    rw [List.mem_singleton] at hr
    subst hr
    norm_num)]
  simp only [specThroughputBps, List.map_cons, List.map_nil, List.sum_cons,
    List.sum_nil]
  rw [if_pos (by norm_num)]
  norm_num

/-- C4: the latency recurrence of lines 53-55.  With prior latency `L0`,
one qualifying flow of per-flow latency `x` yields `(L0 + x)/2`; the
flows `x` then `y` yield `((L0 + x)/2 + y)/2`; and swapping the two
flows gives the same answer exactly when `x = y`. -/
theorem latency_recurrence (L0 x y t0 : ℝ) :
    (ThroughputMonitor [⟨1, 1, x, 0, 1⟩] ⟨t0, L0⟩).gLatency = (L0 + x) / 2 ∧
    (ThroughputMonitor [⟨1, 1, x, 0, 1⟩, ⟨1, 1, y, 0, 1⟩]
      ⟨t0, L0⟩).gLatency = ((L0 + x) / 2 + y) / 2 ∧
    ((ThroughputMonitor [⟨1, 1, y, 0, 1⟩, ⟨1, 1, x, 0, 1⟩]
        ⟨t0, L0⟩).gLatency =
      (ThroughputMonitor [⟨1, 1, x, 0, 1⟩, ⟨1, 1, y, 0, 1⟩]
        ⟨t0, L0⟩).gLatency ↔ x = y) := by
  refine ⟨?_, ?_, ?_⟩
  · simp [ThroughputMonitor, monitorLoop]
  · simp [ThroughputMonitor, monitorLoop]
  · simp only [ThroughputMonitor, monitorLoop]
    norm_num
    constructor
    · intro h; linarith
    · intro h; rw [h]

/-- C5 counterexample: a record with `rxPackets = 5 > 0` but
`rxBytes = 0` gets NO latency update — the `rxPackets > 0` test of line
51 sits inside the `rxBytes > 0` branch of line 46.  Starting from
latency `0`, the claimed update would give `(0 + 10/5)/2 = 1`, but the
code leaves the latency at `0`. -/
theorem latency_update_requires_rxBytes_cex :
    (ThroughputMonitor [⟨0, 5, 10, 0, 1⟩] ⟨0, 0⟩).gLatency = 0 ∧
    ((0 : ℝ) + 10 / 5) / 2 ≠ 0 := by
  constructor
  · simp [ThroughputMonitor, monitorLoop]
  · norm_num

/-- C5 amended: for every record with `rxBytes > 0` AND `rxPackets > 0`,
the Aggregator applies `meanLatencySeconds = (meanLatencySeconds +
delaySum/rxPackets)/2` exactly once for that record, then continues with
the remaining records; a record with `rxBytes == 0` is skipped entirely,
latency update included. -/
theorem latency_update_once (r : FlowStats) (rest : List FlowStats)
    (m : AggregateMetrics) (hb : 0 < r.rxBytes) (hp : 0 < r.rxPackets) :
    (ThroughputMonitor (r :: rest) m).gLatency =
      (ThroughputMonitor rest
        ⟨m.gThroughput,
         (m.gLatency + r.delaySum / (r.rxPackets : ℝ)) / 2⟩).gLatency := by
  unfold ThroughputMonitor
  simp only [monitorLoop, if_pos hb, if_pos hp]
  exact monitorLoop_snd_total rest _ _ _

/-- Witness for C5 at a concrete input: the record `(rxBytes 2,
rxPackets 4, delaySum 8)` over prior metrics `(0, 6)` updates the
latency once, to `(6 + 8/4)/2 = 4`. -/
theorem latency_update_once_witness :
    (ThroughputMonitor [⟨2, 4, 8, 0, 1⟩] ⟨0, 6⟩).gLatency = 4 := by
  rw [latency_update_once ⟨2, 4, 8, 0, 1⟩ [] ⟨0, 6⟩ (by norm_num) (by norm_num)]
  simp [ThroughputMonitor, monitorLoop]
  norm_num

/-- C2: whenever the Aggregator's final throughput is non-positive, the
Fallback Estimator sets throughput to `bandwidthHz * log2(1 +
10^((10 + (txPowerDbm - 20)/2)/10)) * (0.8 if TDD else 0.95) *
(4 if frequencyHz < 6e9 else 8) * 0.85` and latency to `0.001 +
(0.0005 if TDD else 0) + (100e6/bandwidthHz)*0.0005`. -/
theorem fallback_formula (m : AggregateMetrics) (c : ScenarioConfig)
    (h : m.gThroughput ≤ 0) :
    (EstimateIfNeeded m c).gThroughput =
      c.gBandwidth *
        Real.logb 2 (1 + (10 : ℝ) ^ ((10 + (c.gTxPower - 20) / 2) / 10)) *
        (if c.gDuplexMode = "TDD" then 0.8 else 0.95) *
        (if c.gFrequency < 6e9 then 4 else 8) * 0.85 ∧
    (EstimateIfNeeded m c).gLatency =
      0.001 + (if c.gDuplexMode = "TDD" then 0.0005 else 0) +
        (100e6 / c.gBandwidth) * 0.0005 := by
  unfold EstimateIfNeeded fallbackThroughput fallbackLatency
  unfold spectralEfficiency snr duplexEfficiency mimoFactor overheadFactor
  rw [if_pos h]
  exact ⟨rfl, rfl⟩

/-- Witness for C2 at the spec's trigger instance: `throughputBps = 0`,
`txPowerDbm = 20`, `bandwidthHz = 20e6`, TDD, `frequencyHz = 3.5e9`
gives throughput `20e6 * log2(11) * 0.8 * 4 * 0.85` and latency exactly
`0.004` seconds. -/
theorem fallback_formula_witness :
    (EstimateIfNeeded ⟨0, 0⟩ ⟨3.5e9, 20e6, "TDD", 20⟩).gThroughput =
      20e6 * Real.logb 2 11 * 0.8 * 4 * 0.85 ∧
    (EstimateIfNeeded ⟨0, 0⟩ ⟨3.5e9, 20e6, "TDD", 20⟩).gLatency = 0.004 := by
  obtain ⟨h1, h2⟩ :=
    fallback_formula ⟨0, 0⟩ ⟨3.5e9, 20e6, "TDD", 20⟩ (by norm_num)
  constructor
  · rw [h1]
    have he : (((10 : ℝ) + ((20 : ℝ) - 20) / 2) / 10) = 1 := by norm_num
    rw [show ((⟨3.5e9, 20e6, "TDD", 20⟩ : ScenarioConfig).gTxPower) = 20
      from rfl] at *
    rw [he, Real.rpow_one]
    rw [if_pos rfl, if_pos (by norm_num : (3.5e9 : ℝ) < 6e9)]
    norm_num
  · rw [h2, if_pos rfl]
    norm_num

/-- C6: with a positive measured throughput the Estimator is not
triggered and returns its input verbatim, both fields untouched. -/
theorem estimator_no_trigger_id (m : AggregateMetrics) (c : ScenarioConfig)
    (h : 0 < m.gThroughput) : EstimateIfNeeded m c = m := by
  unfold EstimateIfNeeded
  rw [if_neg (not_le.mpr h)]

/-- Witness for C6 at a concrete input. -/
theorem estimator_no_trigger_id_witness :
    EstimateIfNeeded ⟨1, 2⟩ ⟨3.5e9, 20e6, "TDD", 20⟩ = ⟨1, 2⟩ :=
  estimator_no_trigger_id ⟨1, 2⟩ ⟨3.5e9, 20e6, "TDD", 20⟩ (by norm_num)

/-- The fallback throughput is positive whenever the configured bandwidth
is: each factor — `log2(1 + 10^x)` with `10^x > 0`, the duplex
efficiency, the MIMO factor and the overhead factor — is positive. -/
lemma fallbackThroughput_pos (c : ScenarioConfig) (hbw : 0 < c.gBandwidth) :
    0 < fallbackThroughput c := by
  unfold fallbackThroughput
  have h1 : 0 < spectralEfficiency c := by
    unfold spectralEfficiency
    apply Real.logb_pos (by norm_num)
    have := Real.rpow_pos_of_pos (show (0 : ℝ) < 10 by norm_num) (snr c / 10)
    linarith
  have h2 : 0 < duplexEfficiency c := by
    unfold duplexEfficiency
    split <;> norm_num
  have h3 : 0 < mimoFactor c := by
    unfold mimoFactor
    split <;> norm_num
  have h4 : (0 : ℝ) < overheadFactor := by unfold overheadFactor; norm_num
  exact mul_pos (mul_pos (mul_pos (mul_pos hbw h1) h2) h3) h4

/-- C7: with a positive configured bandwidth, `EstimateIfNeeded` is
idempotent — applying it to its own output returns that output
unchanged, because a triggered fallback always produces a positive
throughput and the trigger condition then fails. -/
theorem estimator_idempotent (m : AggregateMetrics) (c : ScenarioConfig)
    (hbw : 0 < c.gBandwidth) :
    EstimateIfNeeded (EstimateIfNeeded m c) c = EstimateIfNeeded m c := by
  by_cases h : m.gThroughput ≤ 0
  · have hEm : EstimateIfNeeded m c =
        ⟨fallbackThroughput c, fallbackLatency c⟩ := by
      unfold EstimateIfNeeded
      rw [if_pos h]
    rw [hEm]
    unfold EstimateIfNeeded
    exact if_neg (not_le.mpr (fallbackThroughput_pos c hbw))
  · have hm : EstimateIfNeeded m c = m := by
      unfold EstimateIfNeeded
      rw [if_neg h]
    rw [hm, hm]

/-- Witness for C7 at a concrete triggered input. -/
theorem estimator_idempotent_witness :
    (0 : ℝ) < 20e6 ∧
    EstimateIfNeeded
        (EstimateIfNeeded ⟨0, 0⟩ ⟨3.5e9, 20e6, "TDD", 20⟩)
        ⟨3.5e9, 20e6, "TDD", 20⟩ =
      EstimateIfNeeded ⟨0, 0⟩ ⟨3.5e9, 20e6, "TDD", 20⟩ :=
  ⟨by norm_num,
   estimator_idempotent ⟨0, 0⟩ ⟨3.5e9, 20e6, "TDD", 20⟩ (by norm_num)⟩

/-- C10: when the fallback fires, its latency reads only `gDuplexMode`
and `gBandwidth`; two configurations that agree on those two fields get
the same latency however much `gFrequency` and `gTxPower` differ. -/
theorem fallback_latency_depends_only (m : AggregateMetrics)
    (c1 c2 : ScenarioConfig) (h : m.gThroughput ≤ 0)
    (hd : c1.gDuplexMode = c2.gDuplexMode)
    (hb : c1.gBandwidth = c2.gBandwidth) :
    (EstimateIfNeeded m c1).gLatency = (EstimateIfNeeded m c2).gLatency := by
  unfold EstimateIfNeeded
  rw [if_pos h, if_pos h]
  unfold fallbackLatency
  rw [hd, hb]

/-- Witness for C10: same duplex mode and bandwidth, different frequency
(3.5 GHz vs 28 GHz) and transmit power (20 vs 35 dBm). -/
theorem fallback_latency_depends_only_witness :
    (EstimateIfNeeded ⟨0, 0⟩ ⟨3.5e9, 20e6, "TDD", 20⟩).gLatency =
      (EstimateIfNeeded ⟨0, 0⟩ ⟨28e9, 20e6, "TDD", 35⟩).gLatency :=
  fallback_latency_depends_only ⟨0, 0⟩ ⟨3.5e9, 20e6, "TDD", 20⟩
    ⟨28e9, 20e6, "TDD", 35⟩ (by norm_num) rfl rfl
